import Mathlib

/-!
Verification of the nuScenes VQA scene-query engine: a shallow embedding of
`src/scene_vqa.py` (the `SceneFrame` aggregator and the `answer` question
router) and of the summary fallback in the app layer (`quick_scene_summary`).

Modelling conventions:
* Python strings are `List Char`; `str.lower`, substring containment,
  `str.split(sep)`, `str.split()`, `str.replace` are modelled below.
* Stored coordinates are exact rationals; the Euclidean distances of the
  "which is closer" branch are real numbers, with `⊤ : WithTop ℝ` playing
  `float('inf')`.
* A raised Python exception (IndexError from an out-of-range subscript, an
  exception from the external LLM client) is modelled as `Option.none`.
-/

abbrev Str := List Char

/-- Python `str.lower()` (ASCII model). -/
def pyLower (s : Str) : Str := s.map Char.toLower

/-- `isStart pat s`: does `s` start with `pat`? -/
def isStart : Str → Str → Bool
  | [], _ => true
  | _ :: _, [] => false
  | a :: as, b :: bs => a == b && isStart as bs

/-- Python `pat in s`: substring containment. -/
def occurs (pat : Str) : Str → Bool
  | [] => isStart pat []
  | b :: bs => isStart pat (b :: bs) || occurs pat bs

/-- Leftmost occurrence of `pat` in `s`: `some (pre, post)` where
`s = pre ++ pat ++ post` and the occurrence is the first one found
scanning from the left. -/
def breakOn (pat : Str) : Str → Option (Str × Str)
  | [] => if isStart pat [] then some ([], []) else none
  | b :: bs =>
    if isStart pat (b :: bs) then some ([], (b :: bs).drop pat.length)
    else
      match breakOn pat bs with
      | some (pre, post) => some (b :: pre, post)
      | none => none

/-- Python `s.split(sep)` for nonempty `sep`: greedy left-to-right cutting
at each non-overlapping occurrence.  The explicit fuel only serves
structural recursion; `fuel > s.length` always suffices because each cut
consumes at least one character. -/
def pySplitGo (sep : Str) : Nat → Str → List Str
  | 0, s => [s]
  | fuel + 1, s =>
    match breakOn sep s with
    | none => [s]
    | some (pre, post) => pre :: pySplitGo sep fuel post

def pySplit (sep s : Str) : List Str :=
  if sep.isEmpty then [s] else pySplitGo sep (s.length + 1) s

/-- Python `s.split(sep)[-1]`: `split` never returns an empty list, so the
default of `getLastD` is unreachable. -/
def lastSeg (sep s : Str) : Str := (pySplit sep s).getLastD []

/-- Python `s.replace(old, new)` for nonempty `old`. -/
def pyReplace (old new s : Str) : Str := List.intercalate new (pySplit old s)

/-- ASCII whitespace as used by Python `str.split()`. -/
def isPySpace (c : Char) : Bool :=
  c == ' ' || c == '\t' || c == '\n' || c == '\r'

/-- Worker for Python `str.split()` (no argument): whitespace runs separate
tokens and produce no empty tokens. -/
def pyWordsGo : Str → Str → List Str
  | [], cur => if cur.isEmpty then [] else [cur.reverse]
  | c :: rest, cur =>
    if isPySpace c then
      if cur.isEmpty then pyWordsGo rest []
      else cur.reverse :: pyWordsGo rest []
    else pyWordsGo rest (c :: cur)

def pyWords (s : Str) : List Str := pyWordsGo s []

/-- The token extraction `q.split(phrase)[-1].split()[0]` used by the
question router; `none` models the IndexError raised by `[0]` when the
trailing segment holds no token. -/
def extractObj (phrase q : Str) : Option Str := (pyWords (lastSeg phrase q)).head?

/-- One tracked object instance of a scene: its dataset category label and
its per-sample positions in the ego-relative frame
(`x` lateral, positive right; `y` longitudinal, positive ahead). -/
structure InstanceTrack where
  category_name : Str
  locations : List (ℚ × ℚ)
deriving DecidableEq

/-- The scene aggregate; only the instance list matters to the queries. -/
structure SceneFrame where
  instances : List InstanceTrack
deriving DecidableEq

/-- `np.mean` over rationals (`sum / len`). -/
def meanQ (xs : List ℚ) : ℚ := xs.sum / (xs.length : ℚ)

def SceneFrame.is_ahead (inst : InstanceTrack) : Bool :=
  decide (0 < meanQ (inst.locations.map Prod.snd))

def SceneFrame.is_behind (inst : InstanceTrack) : Bool :=
  decide (meanQ (inst.locations.map Prod.snd) < 0)

def SceneFrame.is_left (inst : InstanceTrack) : Bool :=
  decide (meanQ (inst.locations.map Prod.fst) < 0)

def SceneFrame.is_right (inst : InstanceTrack) : Bool :=
  decide (0 < meanQ (inst.locations.map Prod.fst))

inductive Direction where
  | ahead
  | behind
  | left
  | right
deriving DecidableEq

/-- The dynamic `getattr(self, f"is_{direction}")` dispatch, as the fixed
table over the four direction names the router can produce. -/
def dirPred : Direction → InstanceTrack → Bool
  | .ahead => SceneFrame.is_ahead
  | .behind => SceneFrame.is_behind
  | .left => SceneFrame.is_left
  | .right => SceneFrame.is_right

def dirKeyword : Direction → Str
  | .ahead => "ahead".toList
  | .behind => "behind".toList
  | .left => "left".toList
  | .right => "right".toList

/-- The literal `["ahead", "behind", "left", "right"]` of the router. -/
def dirList : List Direction := [.ahead, .behind, .left, .right]

/-- `next((d for d in ["ahead", "behind", "left", "right"] if d in q), …)`
without its default argument. -/
def findDirection (q : Str) : Option Direction :=
  dirList.find? (fun d => occurs (dirKeyword d) q)

def SceneFrame.query_exist (s : SceneFrame) (obj : Str) (direction : Direction) : Bool :=
  s.instances.any (fun inst => occurs obj inst.category_name && dirPred direction inst)

def SceneFrame.query_count (s : SceneFrame) (obj : Str) (direction : Option Direction) : Nat :=
  let objs := s.instances.filter (fun inst => occurs obj inst.category_name)
  match direction with
  | some d => (objs.filter (fun inst => dirPred d inst)).length
  | none => objs.length

/-- `np.mean` over reals. -/
noncomputable def meanR (xs : List ℝ) : ℝ := xs.sum / (xs.length : ℝ)

/-- `np.mean([np.linalg.norm(loc) for loc in inst.locations])`: the mean
over an instance's locations of the Euclidean distance from the origin. -/
noncomputable def instMeanDist (inst : InstanceTrack) : ℝ :=
  meanR (inst.locations.map (fun p => Real.sqrt ((p.1 : ℝ) ^ 2 + (p.2 : ℝ) ^ 2)))

/-- `min([instMeanDist inst for inst in instances if obj in inst.category_name]
or [float('inf')])`: the side distance of the "which is closer" branch,
with `⊤` playing `float('inf')`. -/
noncomputable def minDist (s : SceneFrame) (obj : Str) : WithTop ℝ :=
  ((s.instances.filter (fun inst => occurs obj inst.category_name)).map
    (fun inst => ((instMeanDist inst : ℝ) : WithTop ℝ))).foldr min ⊤

/-- The comparison `obj1 if dist1 < dist2 else obj2` closing the
"which is closer" branch of `answer`. -/
noncomputable def query_nearest (s : SceneFrame) (obj1 obj2 : Str) : Str :=
  if minDist s obj1 < minDist s obj2 then obj1 else obj2

/-- Modelled from the spec: the class `InstanceFrame` that provides
`describe_movement()` is not among the sources (only its callers are).
The spec describes it as a short phrase combining the category name with a
sign-of-mean judgment per axis, e.g. "vehicle.bus is ahead and to the
right.", with exact zero falling in the "behind"/"right" bucket. -/
def describe_movement (inst : InstanceTrack) : Str :=
  inst.category_name ++ " is ".toList ++
    (if 0 < meanQ (inst.locations.map Prod.snd) then "ahead".toList else "behind".toList) ++
    " and to the ".toList ++
    (if meanQ (inst.locations.map Prod.fst) < 0 then "left".toList else "right".toList) ++
    ".".toList

/-- `" ".join([inst.describe_movement() for inst in scene_frame.instances])`. -/
def summarize_scene (s : SceneFrame) : Str :=
  List.intercalate " ".toList (s.instances.map describe_movement)

/-- `quick_scene_summary` from the app layer.  The global `USE_GPT` flag and
the OpenAI client are passed explicitly: `llm prompt = none` models the
client call raising an exception. -/
def quick_scene_summary (useGPT : Bool) (llm : Str → Option Str) (s : SceneFrame) : Str :=
  let full := summarize_scene s
  if useGPT then
    match llm ("Summarize this in one short sentence for an autonomous driving report: ".toList ++ full) with
    | some out => out
    | none => "Scene summary unavailable (GPT error).".toList
  else
    if 200 < full.length then full.take 200 ++ "...".toList else full

/-- The value kinds `answer` can produce: a plain string (also used for the
booleans rendered "Yes"/"No" and for the comma-joined category list) or the
integer of `query_count`. -/
inductive AnswerValue where
  | str : Str → AnswerValue
  | nat : Nat → AnswerValue
deriving DecidableEq

/-- `answer(scene_frame, question)`; `none` models a raised exception.
The "what objects" branch joins a Python `set`, whose iteration order is
arbitrary; it is modelled with `List.dedup` (a fixed deterministic order). -/
noncomputable def answer (s : SceneFrame) (question : Str) : Option AnswerValue :=
  let q := pyLower question
  if occurs "passenger".toList q then
    some (.str "Passenger information is not available in nuScenes dataset.".toList)
  else if occurs "is there".toList q then
    match extractObj "is there a ".toList q with
    | none => none
    | some obj =>
      let direction := (findDirection q).getD .ahead
      some (.str (if s.query_exist obj direction then "Yes".toList else "No".toList))
  else if occurs "how many".toList q then
    match extractObj "how many ".toList q with
    | none => none
    | some obj => some (.nat (s.query_count obj (findDirection q)))
  else if occurs "what objects".toList q || occurs "what is".toList q then
    some (.str (List.intercalate ", ".toList ((s.instances.map (·.category_name)).dedup)))
  else if occurs "which is closer".toList q then
    let tokens := pySplit " or ".toList (pyReplace "which is closer, ".toList [] q)
    match tokens[0]?, tokens[1]? with
    | some obj1, some obj2 => some (.str (query_nearest s obj1 obj2))
    | _, _ => none
  else if occurs "describe the scene".toList q then
    some (.str (summarize_scene s))
  else
    some (.str "Question type not supported.".toList)

/-- A bus at mean distance 10 from the ego origin. -/
def busInst : InstanceTrack := ⟨"vehicle.bus".toList, [(0, 10)]⟩

/-- A truck at mean distance 4 from the ego origin. -/
def truckInst : InstanceTrack := ⟨"vehicle.truck".toList, [(0, 4)]⟩

def busTruckScene : SceneFrame := ⟨[busInst, truckInst]⟩

def emptyScene : SceneFrame := ⟨[]⟩

/-- An instance whose mean longitudinal and mean lateral components are
both exactly zero. -/
def zeroMeanInst : InstanceTrack := ⟨"vehicle.bus".toList, [(3, 5), (-3, -5)]⟩

/-- An instance whose category name alone makes the scene summary longer
than 200 characters. -/
def longCatInst : InstanceTrack := ⟨List.replicate 201 'a', [(0, 5)]⟩

def longCatScene : SceneFrame := ⟨[longCatInst]⟩

/-! ### Helper lemmas -/

theorem list_any_and_iff_filter_pos {α : Type} (p r : α → Bool) (l : List α) :
    l.any (fun a => p a && r a) = true ↔ 0 < ((l.filter p).filter r).length := by
  induction l with
  | nil => simp
  | cons a t ih =>
    cases hp : p a <;> cases hr : r a <;>
      simp [List.filter_cons, hp, hr, ih]

theorem list_foldr_min_le {α : Type} [LinearOrder α] (l : List α) (t x : α) (hx : x ∈ l) :
    l.foldr min t ≤ x := by
  induction l with
  | nil => cases hx
  | cons a s ih =>
    rcases List.mem_cons.mp hx with h | h
    · subst h
      exact min_le_left _ _
    · exact le_trans (min_le_right _ _) (ih h)

theorem list_foldr_min_cases {α : Type} [LinearOrder α] (l : List α) (t : α) :
    l.foldr min t = t ∨ l.foldr min t ∈ l := by
  induction l with
  | nil => exact Or.inl rfl
  | cons a s ih =>
    rcases le_total a (s.foldr min t) with h | h
    · exact Or.inr (by simp [min_eq_left h])
    · have hm : (a :: s).foldr min t = s.foldr min t := by
        simp [min_eq_right h]
      rcases ih with h' | h'
      · exact Or.inl (hm.trans h')
      · exact Or.inr (by rw [hm]; exact List.mem_cons_of_mem _ h')

theorem breakOn_of_occurs_false (pat : Str) (s : Str) (h : occurs pat s = false) :
    breakOn pat s = none := by
  induction s with
  | nil =>
    rw [occurs] at h
    simp [breakOn, h]
  | cons b bs ih =>
    rw [occurs, Bool.or_eq_false_iff] at h
    rw [breakOn, if_neg (by simp [h.1]), ih h.2]

theorem pySplit_of_no_occ (sep s : Str) (hsep : sep.isEmpty = false)
    (h : occurs sep s = false) : pySplit sep s = [s] := by
  rw [pySplit, if_neg (by simp [hsep]), pySplitGo, breakOn_of_occurs_false sep s h]

theorem findDirection_eq_none (q : Str)
    (h : ∀ d ∈ dirList, occurs (dirKeyword d) q = false) : findDirection q = none :=
  List.find?_eq_none.mpr (fun d hd => by simp [h d hd])

/-! ### Claim theorems -/

/-- C4: for every category substring `c` and every direction `d` of the four,
`query_exist c d` is true exactly when `query_count c d` is positive. -/
theorem query_exist_iff_count_pos (s : SceneFrame) (c : Str) (d : Direction) :
    s.query_exist c d = true ↔ 0 < s.query_count c (some d) := by
  simp only [SceneFrame.query_exist, SceneFrame.query_count]
  exact list_any_and_iff_filter_pos _ _ _

/-- C5: for every category substring `c` and every direction `d`, the
unfiltered count dominates the directionally filtered count:
`query_count c None >= query_count c d`. -/
theorem query_count_filter_le_unfiltered (s : SceneFrame) (c : Str) (d : Direction) :
    s.query_count c (some d) ≤ s.query_count c none := by
  simp only [SceneFrame.query_count]
  exact List.length_filter_le _ _

/-- C8: for every category substring and every direction filter (including
none), `query_count` returns 0 when no instance's category name contains
the substring. -/
theorem query_count_no_match_zero (s : SceneFrame) (c : Str)
    (h : ∀ inst ∈ s.instances, occurs c inst.category_name = false) :
    ∀ d : Option Direction, s.query_count c d = 0 := by
  have hf : s.instances.filter (fun inst => occurs c inst.category_name) = [] :=
    List.filter_eq_nil_iff.mpr (fun a ha => by simp [h a ha])
  intro d
  cases d <;> simp [SceneFrame.query_count, hf]

/-- Witness for C8 with a nonempty scene whose categories do not contain
the query substring. -/
theorem query_count_no_match_zero_witness :
    busTruckScene.query_count ("human.pedestrian".toList) none = 0 ∧
    busTruckScene.query_count ("human.pedestrian".toList) (some .left) = 0 := by
  have h := query_count_no_match_zero busTruckScene ("human.pedestrian".toList) (by decide)
  exact ⟨h none, h (some .left)⟩

/-- C2 counterexample: an instance whose mean longitudinal (y) component is
exactly zero does NOT satisfy the `is_behind` predicate used by
`query_exist`/`query_count` (and one with zero mean lateral (x) component
does not satisfy `is_right`): both predicates test a strict inequality, so
the instance lands in neither bucket, contrary to the claim. -/
theorem zero_mean_not_behind_cex :
    meanQ (zeroMeanInst.locations.map Prod.snd) = 0 ∧
    SceneFrame.is_behind zeroMeanInst = false ∧
    meanQ (zeroMeanInst.locations.map Prod.fst) = 0 ∧
    SceneFrame.is_right zeroMeanInst = false ∧
    SceneFrame.query_exist ⟨[zeroMeanInst]⟩ ("vehicle.bus".toList) .behind = false ∧
    SceneFrame.query_count ⟨[zeroMeanInst]⟩ ("vehicle.bus".toList) (some .behind) = 0 := by
  have hy : meanQ (zeroMeanInst.locations.map Prod.snd) = 0 := by
    norm_num [zeroMeanInst, meanQ]
  have hx : meanQ (zeroMeanInst.locations.map Prod.fst) = 0 := by
    norm_num [zeroMeanInst, meanQ]
  have hb : SceneFrame.is_behind zeroMeanInst = false := by
    rw [SceneFrame.is_behind, hy]; rfl
  have hr : SceneFrame.is_right zeroMeanInst = false := by
    rw [SceneFrame.is_right, hx]; rfl
  refine ⟨hy, hb, hx, hr, ?_, ?_⟩
  · simp [SceneFrame.query_exist, dirPred, hb]
  · simp [SceneFrame.query_count, dirPred, List.filter_cons, hb]

/-- C2 amended: an `InstanceTrack` whose mean longitudinal (y) component is
exactly zero satisfies neither the `ahead` nor the `behind` directional
predicate, and one whose mean lateral (x) component is exactly zero
satisfies neither `left` nor `right`; `query_exist` therefore reports false
for such an instance in both buckets of that axis. -/
theorem zero_mean_axis_unclassified (inst : InstanceTrack) :
    (meanQ (inst.locations.map Prod.snd) = 0 →
      SceneFrame.is_ahead inst = false ∧ SceneFrame.is_behind inst = false ∧
      ∀ c : Str, SceneFrame.query_exist ⟨[inst]⟩ c .ahead = false ∧
        SceneFrame.query_exist ⟨[inst]⟩ c .behind = false) ∧
    (meanQ (inst.locations.map Prod.fst) = 0 →
      SceneFrame.is_left inst = false ∧ SceneFrame.is_right inst = false ∧
      ∀ c : Str, SceneFrame.query_exist ⟨[inst]⟩ c .left = false ∧
        SceneFrame.query_exist ⟨[inst]⟩ c .right = false) := by
  constructor
  · intro hy
    have ha : SceneFrame.is_ahead inst = false := by
      rw [SceneFrame.is_ahead, hy]; rfl
    have hb : SceneFrame.is_behind inst = false := by
      rw [SceneFrame.is_behind, hy]; rfl
    exact ⟨ha, hb, fun c =>
      ⟨by simp [SceneFrame.query_exist, dirPred, ha],
       by simp [SceneFrame.query_exist, dirPred, hb]⟩⟩
  · intro hx
    have hl : SceneFrame.is_left inst = false := by
      rw [SceneFrame.is_left, hx]; rfl
    have hr : SceneFrame.is_right inst = false := by
      rw [SceneFrame.is_right, hx]; rfl
    exact ⟨hl, hr, fun c =>
      ⟨by simp [SceneFrame.query_exist, dirPred, hl],
       by simp [SceneFrame.query_exist, dirPred, hr]⟩⟩

/-- Witness for the amended C2 at a concrete zero-mean instance. -/
theorem zero_mean_axis_unclassified_witness :
    SceneFrame.is_ahead zeroMeanInst = false ∧
    SceneFrame.is_behind zeroMeanInst = false ∧
    SceneFrame.is_left zeroMeanInst = false ∧
    SceneFrame.is_right zeroMeanInst = false := by
  have h := zero_mean_axis_unclassified zeroMeanInst
  have hy := h.1 (by norm_num [zeroMeanInst, meanQ])
  have hx := h.2 (by norm_num [zeroMeanInst, meanQ])
  exact ⟨hy.1, hy.2.1, hx.1, hx.2.1⟩

set_option maxRecDepth 4000 in
theorem summarize_longCat_length : (summarize_scene longCatScene).length = 228 := by
  have h : describe_movement longCatInst =
      List.replicate 201 'a' ++ " is ".toList ++ "ahead".toList ++ " and to the ".toList
        ++ "right".toList ++ ".".toList := by
    rw [describe_movement]
    norm_num [longCatInst, meanQ]
  rw [summarize_scene]
  simp only [longCatScene, List.map_cons, List.map_nil, h]
  rw [List.intercalate]
  simp [List.length_append, List.length_replicate]

/-- C6 counterexample: when the LLM collaborator fails, `quick_scene_summary`
returns the fixed string "Scene summary unavailable (GPT error)." — which is
neither the raw scene summary nor its 200-character truncation, contrary to
the claim that a collaborator failure degrades to the (truncated) raw
summary. -/
theorem gpt_failure_fixed_message_cex :
    quick_scene_summary true (fun _ => none) emptyScene =
      "Scene summary unavailable (GPT error).".toList ∧
    quick_scene_summary true (fun _ => none) emptyScene ≠ summarize_scene emptyScene ∧
    quick_scene_summary true (fun _ => none) emptyScene ≠
      (if 200 < (summarize_scene emptyScene).length
       then (summarize_scene emptyScene).take 200 ++ "...".toList
       else summarize_scene emptyScene) := by
  exact ⟨rfl, by decide, by decide⟩

/-- C6 amended: a failing LLM collaborator never surfaces an exception, but
the result is the fixed "Scene summary unavailable (GPT error)." string, not
the raw summary; the raw summary — truncated to 200 characters plus "..."
when longer than 200 — is returned only when the collaborator is absent
(`USE_GPT` false). -/
theorem quick_scene_summary_fallbacks (s : SceneFrame) (llm : Str → Option Str) :
    (llm ("Summarize this in one short sentence for an autonomous driving report: ".toList
        ++ summarize_scene s) = none →
      quick_scene_summary true llm s = "Scene summary unavailable (GPT error).".toList) ∧
    (quick_scene_summary false llm s =
      if 200 < (summarize_scene s).length
      then (summarize_scene s).take 200 ++ "...".toList
      else summarize_scene s) ∧
    (200 < (summarize_scene s).length →
      (quick_scene_summary false llm s).length = 203) := by
  refine ⟨fun h => ?_, rfl, fun h => ?_⟩
  · show (match llm ("Summarize this in one short sentence for an autonomous driving report: ".toList
        ++ summarize_scene s) with
      | some out => out
      | none => "Scene summary unavailable (GPT error).".toList) =
        "Scene summary unavailable (GPT error).".toList
    rw [h]
  · rw [quick_scene_summary]
    simp only [Bool.false_eq_true, if_false, if_pos h]
    simp [List.length_take]
    omega

/-- Witness for the amended C6 at a failing collaborator and at a scene whose
raw summary exceeds the 200-character display bound. -/
theorem quick_scene_summary_fallbacks_witness :
    quick_scene_summary true (fun _ => none) longCatScene =
      "Scene summary unavailable (GPT error).".toList ∧
    (quick_scene_summary false (fun _ => none) longCatScene).length = 203 := by
  have h200 : 200 < (summarize_scene longCatScene).length := by
    rw [summarize_longCat_length]; omega
  exact ⟨(quick_scene_summary_fallbacks longCatScene (fun _ => none)).1 rfl,
    (quick_scene_summary_fallbacks longCatScene (fun _ => none)).2.2 h200⟩

/-- C1 counterexample: a question matching the "which is closer" pattern but
containing no " or " separator makes `answer` raise an IndexError at
`tokens[1]` (modelled: return `none`) instead of returning a textual
answer, so `answer` is not exception-free. -/
theorem answer_closer_missing_or_none :
    answer emptyScene ("which is closer, bus".toList) = none := by
  decide

/-- C1 amended: questions matching no supported pattern do return the fixed
"Question type not supported." text, but `answer` is not exception-free: a
question matching the "which is closer" pattern whose remainder contains no
" or " separator raises an IndexError (modelled as `none`) instead of
returning an answer. -/
theorem answer_unsupported_fixed_text (s : SceneFrame) (question : Str) :
    ((occurs "passenger".toList (pyLower question) = false) →
     (occurs "is there".toList (pyLower question) = false) →
     (occurs "how many".toList (pyLower question) = false) →
     (occurs "what objects".toList (pyLower question) = false) →
     (occurs "what is".toList (pyLower question) = false) →
     (occurs "which is closer".toList (pyLower question) = false) →
     (occurs "describe the scene".toList (pyLower question) = false) →
     answer s question = some (.str "Question type not supported.".toList)) ∧
    ((occurs "passenger".toList (pyLower question) = false) →
     (occurs "is there".toList (pyLower question) = false) →
     (occurs "how many".toList (pyLower question) = false) →
     (occurs "what objects".toList (pyLower question) = false) →
     (occurs "what is".toList (pyLower question) = false) →
     (occurs "which is closer".toList (pyLower question) = true) →
     (occurs " or ".toList (pyReplace "which is closer, ".toList [] (pyLower question)) = false) →
     answer s question = none) := by
  constructor
  · intro h1 h2 h3 h4 h5 h6 h7
    rw [answer]
    simp only [h1, h2, h3, h4, h5, h6, h7, Bool.false_eq_true, if_false, Bool.or_self]
  · intro h1 h2 h3 h4 h5 h6 h7
    have htok : pySplit " or ".toList (pyReplace "which is closer, ".toList [] (pyLower question))
        = [pyReplace "which is closer, ".toList [] (pyLower question)] :=
      pySplit_of_no_occ _ _ (by decide) h7
    rw [answer]
    simp only [h1, h2, h3, h4, h5, h6, Bool.false_eq_true, if_false, Bool.or_self, if_true, htok]
    rfl

/-- Witness for the amended C1: the unsupported question of the spec's own
scenario, and a closer-question without " or " on a nonempty scene. -/
theorem answer_unsupported_fixed_text_witness :
    answer emptyScene ("what color is the sky?".toList) =
      some (.str "Question type not supported.".toList) ∧
    answer busTruckScene ("which is closer, truck".toList) = none := by
  exact ⟨(answer_unsupported_fixed_text emptyScene _).1 (by decide) (by decide) (by decide)
      (by decide) (by decide) (by decide) (by decide),
    (answer_unsupported_fixed_text busTruckScene _).2 (by decide) (by decide) (by decide)
      (by decide) (by decide) (by decide) (by decide)⟩

/-- C7: when none of the four direction keywords appears in the question,
an "is there" question calls `query_exist` with the default direction
"ahead", while a "how many" question calls `query_count` with no direction
filter at all. -/
theorem answer_default_direction (s : SceneFrame) (question : Str)
    (hdir : ∀ d ∈ dirList, occurs (dirKeyword d) (pyLower question) = false) :
    ((occurs "passenger".toList (pyLower question) = false) →
     (occurs "is there".toList (pyLower question) = true) →
     answer s question = (extractObj "is there a ".toList (pyLower question)).map
       (fun obj => .str (if s.query_exist obj .ahead then "Yes".toList else "No".toList))) ∧
    ((occurs "passenger".toList (pyLower question) = false) →
     (occurs "is there".toList (pyLower question) = false) →
     (occurs "how many".toList (pyLower question) = true) →
     answer s question = (extractObj "how many ".toList (pyLower question)).map
       (fun obj => .nat (s.query_count obj none))) := by
  have hfind : findDirection (pyLower question) = none := findDirection_eq_none _ hdir
  constructor
  · intro h1 h2
    rw [answer]
    simp only [h1, h2, Bool.false_eq_true, if_false, if_true, hfind, Option.getD_none]
    cases hE : extractObj "is there a ".toList (pyLower question) <;> simp [hE]
  · intro h1 h2 h3
    rw [answer]
    simp only [h1, h2, h3, Bool.false_eq_true, if_false, if_true, hfind]
    cases hE : extractObj "how many ".toList (pyLower question) <;> simp [hE]

/-- Witness for C7 at two direction-free questions. -/
theorem answer_default_direction_witness :
    answer busTruckScene ("is there a bus?".toList) =
      (extractObj "is there a ".toList (pyLower "is there a bus?".toList)).map
        (fun obj => .str (if busTruckScene.query_exist obj .ahead
          then "Yes".toList else "No".toList)) ∧
    answer busTruckScene ("how many cars?".toList) =
      (extractObj "how many ".toList (pyLower "how many cars?".toList)).map
        (fun obj => .nat (busTruckScene.query_count obj none)) := by
  exact ⟨(answer_default_direction busTruckScene _ (by decide)).1 (by decide) (by decide),
    (answer_default_direction busTruckScene _ (by decide)).2 (by decide) (by decide) (by decide)⟩

/-- C9: when several direction keywords occur in the question, the direction
used is selected by the fixed priority ahead, behind, left, right — the
hypotheses only constrain which keywords occur, never where, so the choice
is independent of the order of first occurrence in the text; the final part
shows the selected direction is what `query_count` receives. -/
theorem direction_priority_order :
    (∀ q : Str, occurs (dirKeyword .ahead) q = true → findDirection q = some .ahead) ∧
    (∀ q : Str, occurs (dirKeyword .ahead) q = false →
      occurs (dirKeyword .behind) q = true → findDirection q = some .behind) ∧
    (∀ q : Str, occurs (dirKeyword .ahead) q = false →
      occurs (dirKeyword .behind) q = false →
      occurs (dirKeyword .left) q = true → findDirection q = some .left) ∧
    (∀ q : Str, occurs (dirKeyword .ahead) q = false →
      occurs (dirKeyword .behind) q = false →
      occurs (dirKeyword .left) q = false →
      occurs (dirKeyword .right) q = true → findDirection q = some .right) ∧
    (∀ (s : SceneFrame) (question : Str),
      occurs "passenger".toList (pyLower question) = false →
      occurs "is there".toList (pyLower question) = false →
      occurs "how many".toList (pyLower question) = true →
      occurs (dirKeyword .ahead) (pyLower question) = false →
      occurs (dirKeyword .behind) (pyLower question) = true →
      answer s question = (extractObj "how many ".toList (pyLower question)).map
        (fun obj => .nat (s.query_count obj (some .behind)))) := by
  have hfb : ∀ q : Str, occurs (dirKeyword .ahead) q = false →
      occurs (dirKeyword .behind) q = true → findDirection q = some .behind := by
    intro q ha hb
    rw [findDirection, dirList]
    rw [List.find?_cons_of_neg _ (by simp [ha]), List.find?_cons_of_pos _ (by simp [hb])]
  refine ⟨?_, hfb, ?_, ?_, ?_⟩
  · intro q ha
    rw [findDirection, dirList]
    rw [List.find?_cons_of_pos _ (by simp [ha])]
  · intro q ha hb hl
    rw [findDirection, dirList]
    rw [List.find?_cons_of_neg _ (by simp [ha]), List.find?_cons_of_neg _ (by simp [hb]),
      List.find?_cons_of_pos _ (by simp [hl])]
  · intro q ha hb hl hr
    rw [findDirection, dirList]
    rw [List.find?_cons_of_neg _ (by simp [ha]), List.find?_cons_of_neg _ (by simp [hb]),
      List.find?_cons_of_neg _ (by simp [hl]), List.find?_cons_of_pos _ (by simp [hr])]
  · intro s question h1 h2 h3 ha hb
    have hfind : findDirection (pyLower question) = some .behind := hfb _ ha hb
    rw [answer]
    simp only [h1, h2, h3, Bool.false_eq_true, if_false, if_true, hfind]
    cases hE : extractObj "how many ".toList (pyLower question) <;> simp [hE]

/-- Witness for C9 at a question in which "left" occurs before "behind" in
the text, yet "behind" is selected by priority. -/
theorem direction_priority_order_witness :
    findDirection (pyLower "how many cars to the left are behind".toList) = some .behind ∧
    answer busTruckScene ("how many cars to the left are behind".toList) =
      (extractObj "how many ".toList (pyLower "how many cars to the left are behind".toList)).map
        (fun obj => .nat (busTruckScene.query_count obj (some .behind))) := by
  exact ⟨direction_priority_order.2.1 _ (by decide) (by decide),
    direction_priority_order.2.2.2.2 busTruckScene _ (by decide) (by decide) (by decide)
      (by decide) (by decide)⟩

theorem minDist_busTruck_bus :
    minDist busTruckScene ("vehicle.bus".toList) = ((10 : ℝ) : WithTop ℝ) := by
  have hf : busTruckScene.instances.filter
      (fun inst => occurs ("vehicle.bus".toList) inst.category_name) = [busInst] := by decide
  rw [minDist, hf]
  simp
  rw [instMeanDist]
  norm_num [busInst, meanR]
  rw [show ((100 : ℝ)) = 10 ^ 2 by norm_num, Real.sqrt_sq (by norm_num : (0:ℝ) ≤ 10)]

theorem minDist_busTruck_truck :
    minDist busTruckScene ("vehicle.truck".toList) = ((4 : ℝ) : WithTop ℝ) := by
  have hf : busTruckScene.instances.filter
      (fun inst => occurs ("vehicle.truck".toList) inst.category_name) = [truckInst] := by decide
  rw [minDist, hf]
  simp
  rw [instMeanDist]
  norm_num [truckInst, meanR]
  rw [show ((16 : ℝ)) = 4 ^ 2 by norm_num, Real.sqrt_sq (by norm_num : (0:ℝ) ≤ 4)]

theorem query_nearest_busTruck :
    query_nearest busTruckScene "vehicle.bus".toList "vehicle.truck".toList =
      "vehicle.truck".toList := by
  rw [query_nearest, minDist_busTruck_bus, minDist_busTruck_truck, if_neg]
  rw [WithTop.coe_lt_coe]
  norm_num

/-- C3: each side's distance in the "which is closer" branch is the minimum
over matching instances of the mean Euclidean distance of that instance's
locations from the origin (`⊤` when no instance matches); a strictly
smaller minimum wins; and on the spec's scenario (bus at mean distance 10,
truck at mean distance 4) the truck term is returned. -/
theorem query_nearest_min_mean_distance :
    (∀ (s : SceneFrame) (t1 t2 : Str),
      minDist s t1 < minDist s t2 → query_nearest s t1 t2 = t1) ∧
    (∀ (s : SceneFrame) (t : Str),
      s.instances.filter (fun inst => occurs t inst.category_name) = [] →
      minDist s t = ⊤) ∧
    (∀ (s : SceneFrame) (t : Str) (inst : InstanceTrack), inst ∈ s.instances →
      occurs t inst.category_name = true →
      minDist s t ≤ ((instMeanDist inst : ℝ) : WithTop ℝ)) ∧
    (∀ (s : SceneFrame) (t : Str), minDist s t ≠ ⊤ →
      ∃ inst ∈ s.instances, occurs t inst.category_name = true ∧
        minDist s t = ((instMeanDist inst : ℝ) : WithTop ℝ)) ∧
    answer busTruckScene ("which is closer, vehicle.bus or vehicle.truck".toList) =
      some (.str "vehicle.truck".toList) := by
  refine ⟨?_, ?_, ?_, ?_, ?_⟩
  · intro s t1 t2 h
    rw [query_nearest, if_pos h]
  · intro s t h
    rw [minDist, h]
    rfl
  · intro s t inst hmem hocc
    exact list_foldr_min_le _ _ _
      (List.mem_map_of_mem _ (List.mem_filter.mpr ⟨hmem, hocc⟩))
  · intro s t hne
    rcases list_foldr_min_cases
        ((s.instances.filter (fun inst => occurs t inst.category_name)).map
          (fun inst => ((instMeanDist inst : ℝ) : WithTop ℝ))) ⊤ with h | h
    · exact absurd h hne
    · rcases List.mem_map.mp h with ⟨inst, hinst, heq⟩
      rcases List.mem_filter.mp hinst with ⟨hmem, hocc⟩
      exact ⟨inst, hmem, hocc, heq.symm⟩
  · calc answer busTruckScene ("which is closer, vehicle.bus or vehicle.truck".toList)
        = some (.str (query_nearest busTruckScene
            "vehicle.bus".toList "vehicle.truck".toList)) := rfl
      _ = some (.str "vehicle.truck".toList) := by rw [query_nearest_busTruck]

/-- Witness for C3 discharging its hypotheses on the concrete bus/truck
scene and the empty scene. -/
theorem query_nearest_min_mean_distance_witness :
    minDist busTruckScene ("vehicle.truck".toList) < minDist busTruckScene ("vehicle.bus".toList) ∧
    query_nearest busTruckScene "vehicle.truck".toList "vehicle.bus".toList =
      "vehicle.truck".toList ∧
    minDist emptyScene ("vehicle.bus".toList) = ⊤ ∧
    minDist busTruckScene ("vehicle.truck".toList) ≤
      ((instMeanDist truckInst : ℝ) : WithTop ℝ) ∧
    (∃ inst ∈ busTruckScene.instances,
      occurs ("vehicle.truck".toList) inst.category_name = true ∧
      minDist busTruckScene ("vehicle.truck".toList) =
        ((instMeanDist inst : ℝ) : WithTop ℝ)) := by
  have hlt : minDist busTruckScene ("vehicle.truck".toList) <
      minDist busTruckScene ("vehicle.bus".toList) := by
    rw [minDist_busTruck_truck, minDist_busTruck_bus]
    exact WithTop.coe_lt_coe.mpr (by norm_num)
  refine ⟨hlt, query_nearest_min_mean_distance.1 _ _ _ hlt,
    query_nearest_min_mean_distance.2.1 emptyScene _ rfl,
    query_nearest_min_mean_distance.2.2.1 busTruckScene _ truckInst (by decide) (by decide),
    query_nearest_min_mean_distance.2.2.2.1 busTruckScene _ ?_⟩
  rw [minDist_busTruck_truck]
  exact WithTop.coe_ne_top

/-- C10: whenever the first term's minimum mean distance is not strictly
smaller than the second's — including exact ties and the case where both
sides match nothing (both infinite) — the second term is returned. -/
theorem query_nearest_tie_second (s : SceneFrame) (t1 t2 : Str) :
    (¬ minDist s t1 < minDist s t2 → query_nearest s t1 t2 = t2) ∧
    (minDist s t1 = minDist s t2 → query_nearest s t1 t2 = t2) ∧
    (minDist s t1 = ⊤ → query_nearest s t1 t2 = t2) := by
  have h1 : ¬ minDist s t1 < minDist s t2 → query_nearest s t1 t2 = t2 := fun h => by
    rw [query_nearest, if_neg h]
  exact ⟨h1, fun h => h1 (by rw [h]; exact lt_irrefl _),
    fun h => h1 (by rw [h]; exact not_top_lt)⟩

/-- Witness for C10: on the empty scene both sides are infinitely distant
and the second extracted term comes back, up through `answer`. -/
theorem query_nearest_tie_second_witness :
    minDist emptyScene ("aaa".toList) = ⊤ ∧
    query_nearest emptyScene "aaa".toList "bbb".toList = "bbb".toList ∧
    answer emptyScene ("which is closer, aaa or bbb".toList) = some (.str "bbb".toList) := by
  have h0 : minDist emptyScene ("aaa".toList) = ⊤ := rfl
  have h := (query_nearest_tie_second emptyScene ("aaa".toList) ("bbb".toList)).2.2 h0
  refine ⟨h0, h, ?_⟩
  calc answer emptyScene ("which is closer, aaa or bbb".toList)
      = some (.str (query_nearest emptyScene "aaa".toList "bbb".toList)) := rfl
    _ = some (.str "bbb".toList) := by rw [h]
